import Mathlib

/-!
Verification of `nlesc_ser2026_plots`: a shallow embedding of
`src/nlesc_ser2026_plots/bar_charts.py` (`create_stacked_bar_chart`, the
spec's `build_stacked_bar_chart`) and proofs about it.

Modelling notes (all translated from the Python source and the pandas /
Altair semantics the source invokes):

* A pandas `DataFrame` is modelled as an ordered list of named, typed
  columns together with a row-label axis (`index`, a list of label values)
  and an optional axis name (`index.name`).  Pandas guarantees that every
  column has exactly as many cells as there are row labels; that invariant
  is `DataFrame.WF` below.
* Cell and label values are `Value` (a rational number or a string); a
  column's pandas dtype is modelled by `Dtype` (`number` for the numeric
  dtypes that `select_dtypes(include=['number'])` selects, `object`
  otherwise).  No claim depends on floating-point arithmetic: the code
  only moves values around, so `ℚ` is an adequate carrier.
* `DataFrame.empty` is pandas semantics: true iff some axis has length 0.
* `DataFrame.reset_index` inserts the row-label axis as a new first column
  named after the axis (`'index'` when unnamed) and raises
  `ValueError("cannot insert <name>, already exists")` when a column of
  that name already exists — this is pandas' behaviour (`DataFrame.insert`
  with `allow_duplicates=False`).
* `DataFrame.melt` with `id_vars=[c]` unpivots every remaining column:
  the result enumerates the value columns in the frame's column order and,
  within each value column, the rows in row order (pandas materialises the
  values with column-major `ravel`), i.e. the long format is grouped by
  source column, not by row.
* Python exceptions are the `PyError` type; each constructor is one raise
  site, with `PyError.pyType`/`PyError.message` recording the Python
  exception class and message text used by the source.
* The call is embedded as a function from the input (plus the keyword
  arguments) to a `CallResult` recording the returned value or the raised
  exception, the final state of the caller's argument (the source mutates
  `df.index.name` in place on line 94), and whether the call reached
  `alt.themes.enable("my_nlesc_theme")` (line 106) — the one process-wide
  side effect.
-/

/-- A cell or row-label value: a number or an arbitrary (string) object. -/
inductive Value where
  | num (x : ℚ)
  | str (s : String)
deriving DecidableEq, Repr

/-- The pandas dtype of a column, as far as `select_dtypes(include=['number'])`
is concerned: `number` for numeric dtypes, `object` for everything else. -/
inductive Dtype where
  | number
  | object
deriving DecidableEq, Repr

/-- One named, typed column of a dataframe. -/
structure Column where
  name : String
  dtype : Dtype
  values : List Value
deriving DecidableEq, Repr

/-- A pandas `DataFrame`: row-label axis (optionally named) plus ordered
columns. -/
structure DataFrame where
  indexName : Option String
  index : List Value
  cols : List Column
deriving DecidableEq, Repr

/-- The pandas invariant: every column has one cell per row label. -/
def DataFrame.WF (df : DataFrame) : Prop :=
  ∀ c ∈ df.cols, c.values.length = df.index.length

instance (df : DataFrame) : Decidable df.WF := by
  unfold DataFrame.WF; infer_instance

/-- `df.empty` (pandas): true iff some axis has length 0. -/
def DataFrame.empty (df : DataFrame) : Bool :=
  df.index.length == 0 || df.cols.length == 0

/-- `df.select_dtypes(include=['number'])`: the sub-frame of numeric columns
(here: just the column list, which is all line 86 uses via `.columns`). -/
def DataFrame.select_dtypes_number (df : DataFrame) : List Column :=
  df.cols.filter (fun c => c.dtype == Dtype.number)

/-- The dtype pandas gives the column materialised from the row-label axis
by `reset_index` (numeric labels give a numeric column).  No claim and no
downstream step of the embedded function depends on it. -/
def inferDtype (vs : List Value) : Dtype :=
  if vs.all (fun v => match v with | .num _ => true | .str _ => false)
  then Dtype.number else Dtype.object

/-- Python exceptions raised by the embedded code, one constructor per
raise site. -/
inductive PyError where
  | typeMismatch
  | emptyInput
  | noNumericColumn
  | insertCollision (col : String)
deriving DecidableEq, Repr

/-- The Python exception class of each error. -/
def PyError.pyType : PyError → String
  | .typeMismatch => "TypeError"
  | .emptyInput => "ValueError"
  | .noNumericColumn => "ValueError"
  | .insertCollision _ => "ValueError"

/-- The Python exception message of each error (lines 78, 82, 88 of the
source; the last is pandas' message from `DataFrame.insert`). -/
def PyError.message : PyError → String
  | .typeMismatch => "Input must be a pandas DataFrame"
  | .emptyInput => "DataFrame cannot be empty"
  | .noNumericColumn => "DataFrame must contain at least one numeric column"
  | .insertCollision c => "cannot insert " ++ c ++ ", already exists"

/-- `df.reset_index()`: insert the row-label axis as the first column,
named after the axis (`'index'` when the axis is unnamed), with a fresh
unnamed `RangeIndex`; pandas raises when the name collides with an
existing column. -/
def DataFrame.reset_index (df : DataFrame) : Except PyError DataFrame :=
  let insertName := df.indexName.getD "index"
  if df.cols.any (fun c => c.name == insertName) then
    .error (.insertCollision insertName)
  else
    .ok { indexName := none
          index := (List.range df.index.length).map (fun i => Value.num i)
          cols := ⟨insertName, inferDtype df.index, df.index⟩ :: df.cols }

/-- One row of the long-format (melted) frame: a (year, activity, value)
triple. -/
structure LongRecord where
  year : Value
  activity : String
  fte : Value
deriving DecidableEq, Repr

/-- The frame produced by `melt`: its three column names and its rows. -/
structure MeltedFrame where
  idName : String
  varName : String
  valueName : String
  records : List LongRecord
deriving DecidableEq, Repr

/-- `df.melt(id_vars=[idVar], var_name=varName, value_name=valueName)`:
unpivot every column other than `idVar` into (id, variable, value) rows.
Pandas materialises the value block column-major, so the rows enumerate
the value columns in column order and, within each, the rows in row
order. -/
def DataFrame.melt (df : DataFrame) (idVar varName valueName : String) :
    MeltedFrame :=
  let idValues :=
    ((df.cols.filter (fun c => c.name == idVar)).headD
      ⟨idVar, Dtype.object, []⟩).values
  let valueCols := df.cols.filter (fun c => c.name != idVar)
  { idName := idVar
    varName := varName
    valueName := valueName
    records := valueCols.flatMap
      (fun c => (idValues.zip c.values).map
        (fun p => ⟨p.1, c.name, p.2⟩)) }

/-- The Altair chart specification built on lines 109–127: the melted data,
the three encodings (field reference string and axis/legend title), the
size properties, the title, and the colour-scale resolution. -/
structure ChartSpec where
  data : MeltedFrame
  xField : String
  xTitle : String
  yField : String
  yTitle : String
  colorField : String
  colorTitle : String
  width : Int
  height : Int
  title : Option String
  resolveColor : String
deriving DecidableEq, Repr

/-- The Python argument: a pandas `DataFrame`, or any other Python value
(`isinstance(df, pd.DataFrame)` is false); `pyList` stands for a bare
list, `otherObject` for any remaining non-tabular value. -/
inductive PyInput where
  | dataframe (df : DataFrame)
  | pyList (xs : List Value)
  | otherObject (descr : String)
deriving DecidableEq, Repr

deriving instance DecidableEq for Except

/-- The observable outcome of one call: the returned chart or the raised
exception, the final state of the caller's argument (the source mutates
the input's `index.name` in place), and whether the call executed
`alt.themes.enable("my_nlesc_theme")`. -/
structure CallResult where
  result : Except PyError ChartSpec
  finalInput : PyInput
  themeEnabled : Bool
deriving DecidableEq, Repr

/-- Shallow embedding of `create_stacked_bar_chart(df, title, width, height)`
(lines 37–129 of `bar_charts.py`), statement by statement:

* line 77: `isinstance` check, `TypeError` otherwise;
* line 81: `df.empty` check, `ValueError` otherwise;
* lines 86–89: `select_dtypes(['number'])` non-emptiness check;
* lines 93–94: `df.index.name = 'Year'` when the axis is unnamed — an
  in-place mutation of the caller's dataframe;
* line 96: `df.reset_index()` (can raise on a column-name collision);
* line 97: `year_col = df_reset.columns[0]`;
* lines 100–104: `melt(id_vars=[year_col], var_name='Activity',
  value_name='FTE')`;
* line 106: `alt.themes.enable("my_nlesc_theme")`;
* lines 109–127: the chart spec (x: `f'{year_col}:O'` titled `'Year'`,
  y: `'FTE:Q'` titled `'Full-Time Equivalent (FTE)'`, color:
  `'Activity:N'` titled `'Activity'`, width, height, title, independent
  colour scale). -/
def create_stacked_bar_chart (input : PyInput)
    (title : Option String := some "FTE Allocation by Activity per Year")
    (width : Int := 700) (height : Int := 400) : CallResult :=
  match input with
  | .pyList xs => ⟨.error .typeMismatch, .pyList xs, false⟩
  | .otherObject d => ⟨.error .typeMismatch, .otherObject d, false⟩
  | .dataframe df =>
    if df.empty then ⟨.error .emptyInput, .dataframe df, false⟩
    else
      let numeric_cols := df.select_dtypes_number.map Column.name
      if numeric_cols.length = 0 then
        ⟨.error .noNumericColumn, .dataframe df, false⟩
      else
        let df1 := match df.indexName with
          | none => { df with indexName := some "Year" }
          | some _ => df
        match df1.reset_index with
        | .error e => ⟨.error e, .dataframe df1, false⟩
        | .ok df_reset =>
          let year_col := ((df_reset.cols.map Column.name).headD "")
          let df_melted := df_reset.melt year_col "Activity" "FTE"
          ⟨.ok { data := df_melted
                 xField := year_col ++ ":O"
                 xTitle := "Year"
                 yField := "FTE:Q"
                 yTitle := "Full-Time Equivalent (FTE)"
                 colorField := "Activity:N"
                 colorTitle := "Activity"
                 width := width
                 height := height
                 title := title
                 resolveColor := "independent" },
           .dataframe df1, true⟩

/-- The row-label column name the call will use: the axis name, or the
fixed name `"Year"` assigned on line 94 when the axis is unnamed. -/
def effectiveIndexName (df : DataFrame) : String :=
  df.indexName.getD "Year"

/-- The spec's scenario table: `{"Research": [2.1, 2.5],
"Training": [0.8, 1.0]}` indexed by the years `[2020, 2021]`, row-label
axis unnamed. -/
def scenarioDf : DataFrame :=
  { indexName := none
    index := [Value.num 2020, Value.num 2021]
    cols := [⟨"Research", Dtype.number, [Value.num (mkRat 21 10), Value.num (mkRat 25 10)]⟩,
             ⟨"Training", Dtype.number, [Value.num (mkRat 8 10), Value.num (mkRat 10 10)]⟩] }

/-- Column-major enumeration of a table's cells: the columns in the
table's original column order and, within each column, the rows in the
table's original row order. -/
def columnMajorRecords (df : DataFrame) : List LongRecord :=
  df.cols.flatMap
    (fun c => (df.index.zip c.values).map (fun p => ⟨p.1, c.name, p.2⟩))

/-- Row-major enumeration of a table's cells, following the spec's words
("all activities for year₁, then all activities for year₂, …"): the rows
in the table's original row order and, within each row, the columns in
the table's original column order.  Stated only to be compared with what
the code produces. -/
def rowMajorRecords (df : DataFrame) : List LongRecord :=
  (List.range df.index.length).flatMap (fun i =>
    df.cols.filterMap (fun c =>
      (df.index[i]?).bind
        (fun y => (c.values[i]?).map (fun v => ⟨y, c.name, v⟩))))

/-- The state of the caller's dataframe after a call that got past the
validation checks: identical except that an unnamed row-label axis has
been named `"Year"` in place (line 94 of the source). -/
def afterNaming (df : DataFrame) : DataFrame :=
  { df with indexName := some (effectiveIndexName df) }

/-- The chart `create_stacked_bar_chart` returns on `scenarioDf` with
`title = none`, `width = 700`, `height = 400`, written out in full. -/
def scenarioChart : ChartSpec :=
  { data := { idName := "Year"
              varName := "Activity"
              valueName := "FTE"
              records := [⟨Value.num 2020, "Research", Value.num (mkRat 21 10)⟩,
                          ⟨Value.num 2021, "Research", Value.num (mkRat 25 10)⟩,
                          ⟨Value.num 2020, "Training", Value.num (mkRat 8 10)⟩,
                          ⟨Value.num 2021, "Training", Value.num (mkRat 10 10)⟩] }
    xField := "Year:O"
    xTitle := "Year"
    yField := "FTE:Q"
    yTitle := "Full-Time Equivalent (FTE)"
    colorField := "Activity:N"
    colorTitle := "Activity"
    width := 700
    height := 400
    title := none
    resolveColor := "independent" }

/-- The scenario table with a named row-label axis (name `"Period"`). -/
def namedScenarioDf : DataFrame :=
  { scenarioDf with indexName := some "Period" }

/-- A valid table (non-empty, numeric column) whose only column is named
`"Year"` while its row-label axis is unnamed: `reset_index` then collides. -/
def collisionDf : DataFrame :=
  { indexName := none
    index := [Value.num 2020, Value.num 2021]
    cols := [⟨"Year", Dtype.number, [Value.num (mkRat 21 10), Value.num (mkRat 25 10)]⟩] }

/-- A table with one declared (non-numeric) column and zero rows. -/
def zeroRowObjectDf : DataFrame :=
  { indexName := none
    index := []
    cols := [⟨"Notes", Dtype.object, []⟩] }

/-- A non-empty table whose only column is non-numeric. -/
def nonNumericDf : DataFrame :=
  { indexName := none
    index := [Value.num 2020]
    cols := [⟨"Notes", Dtype.object, [Value.str "hello"]⟩] }

lemma afterNaming_of_named (df : DataFrame) (n : String)
    (hn : df.indexName = some n) : afterNaming df = df := by
  cases df with
  | mk iN idx cols => simp only [afterNaming, effectiveIndexName] at *; simp [hn]

lemma reset_index_ok (df : DataFrame) (n : String) (hn : df.indexName = some n)
    (hcol : ∀ c ∈ df.cols, c.name ≠ n) :
    df.reset_index =
      .ok { indexName := none
            index := (List.range df.index.length).map (fun i => Value.num i)
            cols := ⟨n, inferDtype df.index, df.index⟩ :: df.cols } := by
  have hany : (df.cols.any (fun c => c.name == n)) = false := by
    rw [List.any_eq_false]
    intro c hc
    simpa using hcol c hc
  unfold DataFrame.reset_index
  simp [hn, hany]

lemma melt_inserted (ridx idxVals : List Value) (dt : Dtype) (n : String)
    (cols : List Column) (hcol : ∀ c ∈ cols, c.name ≠ n) :
    (DataFrame.mk none ridx (⟨n, dt, idxVals⟩ :: cols)).melt n "Activity" "FTE" =
      { idName := n
        varName := "Activity"
        valueName := "FTE"
        records := cols.flatMap
          (fun c => (idxVals.zip c.values).map (fun p => ⟨p.1, c.name, p.2⟩)) } := by
  have hnil : cols.filter (fun c => c.name == n) = [] := by
    rw [List.filter_eq_nil_iff]
    intro c hc
    simpa using hcol c hc
  have hself : cols.filter (fun c => c.name != n) = cols := by
    rw [List.filter_eq_self]
    intro c hc
    simpa using hcol c hc
  unfold DataFrame.melt
  simp [List.filter_cons, hnil, hself]

/-- The success path through `create_stacked_bar_chart`: on a dataframe
that is non-empty, has a numeric column, and has no column named after
the (effective) row-label axis, the call returns the chart built from the
column-major melt, mutates the input's axis name to its effective name,
and enables the theme. -/
theorem create_ok_of_valid (df : DataFrame) (t : Option String) (w h : Int)
    (hne : df.empty = false)
    (hnum : df.select_dtypes_number ≠ [])
    (hcol : ∀ c ∈ df.cols, c.name ≠ effectiveIndexName df) :
    create_stacked_bar_chart (.dataframe df) t w h =
      ⟨.ok { data := { idName := effectiveIndexName df
                       varName := "Activity"
                       valueName := "FTE"
                       records := columnMajorRecords df }
             xField := effectiveIndexName df ++ ":O"
             xTitle := "Year"
             yField := "FTE:Q"
             yTitle := "Full-Time Equivalent (FTE)"
             colorField := "Activity:N"
             colorTitle := "Activity"
             width := w
             height := h
             title := t
             resolveColor := "independent" },
        .dataframe (afterNaming df), true⟩ := by
  have hnum' : (df.select_dtypes_number.map Column.name).length ≠ 0 := by
    simpa using hnum
  have h1 : afterNaming df = DataFrame.mk (some (effectiveIndexName df)) df.index df.cols := by
    cases df; rfl
  have hreset : (afterNaming df).reset_index =
      .ok { indexName := none
            index := (List.range df.index.length).map (fun i => Value.num i)
            cols := ⟨effectiveIndexName df, inferDtype df.index, df.index⟩ :: df.cols } := by
    rw [reset_index_ok (afterNaming df) (effectiveIndexName df) (by rw [h1]) ?hc]
    · rw [h1]
    · rw [h1]; exact hcol
  unfold create_stacked_bar_chart
  simp only [hne, Bool.false_eq_true, if_false, if_neg hnum']
  cases hidx : df.indexName with
  | none =>
    have hdf1 : { df with indexName := some "Year" } = afterNaming df := by
      simp [afterNaming, effectiveIndexName, hidx]
    rw [hdf1, hreset]
    simp only [List.map_cons, List.headD_cons]
    rw [melt_inserted _ _ _ _ _ hcol]
    simp [columnMajorRecords, h1]
  | some n =>
    have hen : effectiveIndexName df = n := by simp [effectiveIndexName, hidx]
    have hdf1 : df = afterNaming df := (afterNaming_of_named df n hidx).symm
    rw [← hdf1] at hreset
    rw [hreset]
    simp only [List.map_cons, List.headD_cons]
    rw [melt_inserted _ _ _ _ _ hcol]
    rw [← hdf1]
    simp [columnMajorRecords]

/-- The empty-check path: an empty dataframe fails with `emptyInput` before
any mutation and before the theme is enabled. -/
theorem create_empty_path (df : DataFrame) (t : Option String) (w h : Int)
    (hemp : df.empty = true) :
    create_stacked_bar_chart (.dataframe df) t w h =
      ⟨.error .emptyInput, .dataframe df, false⟩ := by
  unfold create_stacked_bar_chart
  simp [hemp]

/-- The numeric-check path: a non-empty dataframe with no numeric column
fails with `noNumericColumn` before any mutation and before the theme is
enabled. -/
theorem create_no_numeric_path (df : DataFrame) (t : Option String) (w h : Int)
    (hne : df.empty = false) (hnum : df.select_dtypes_number = []) :
    create_stacked_bar_chart (.dataframe df) t w h =
      ⟨.error .noNumericColumn, .dataframe df, false⟩ := by
  unfold create_stacked_bar_chart
  simp [hne, hnum]

/-- The collision path: a dataframe that passes all three checks but has a
column named after the effective row-label axis name fails inside
`reset_index`, after the in-place renaming and before the theme is
enabled. -/
theorem create_collision_path (df : DataFrame) (t : Option String) (w h : Int)
    (hne : df.empty = false) (hnum : df.select_dtypes_number ≠ [])
    (hcol : ¬ ∀ c ∈ df.cols, c.name ≠ effectiveIndexName df) :
    create_stacked_bar_chart (.dataframe df) t w h =
      ⟨.error (.insertCollision (effectiveIndexName df)),
       .dataframe (afterNaming df), false⟩ := by
  have hnum' : (df.select_dtypes_number.map Column.name).length ≠ 0 := by
    simpa using hnum
  have hany : df.cols.any (fun c => c.name == effectiveIndexName df) = true := by
    push_neg at hcol
    obtain ⟨c, hc, he⟩ := hcol
    exact List.any_eq_true.mpr ⟨c, hc, by simpa using he⟩
  have h1 : afterNaming df =
      DataFrame.mk (some (effectiveIndexName df)) df.index df.cols := by
    cases df; rfl
  have hreset : (afterNaming df).reset_index =
      .error (.insertCollision (effectiveIndexName df)) := by
    rw [h1]
    unfold DataFrame.reset_index
    simp [hany]
  unfold create_stacked_bar_chart
  simp only [hne, Bool.false_eq_true, if_false, if_neg hnum']
  cases hidx : df.indexName with
  | none =>
    have hdf1 : { df with indexName := some "Year" } = afterNaming df := by
      simp [afterNaming, effectiveIndexName, hidx]
    rw [hdf1, hreset]
  | some n =>
    have hAN : afterNaming df = df := afterNaming_of_named df n hidx
    rw [hAN] at hreset
    rw [hAN]
    rw [hreset]

/-- Helper: the records of any chart the call returns are exactly the
column-major enumeration of the input table's cells. -/
theorem records_eq_of_ok (df : DataFrame) (t : Option String) (w h : Int)
    (chart : ChartSpec)
    (hok : (create_stacked_bar_chart (.dataframe df) t w h).result = .ok chart) :
    chart.data.records = columnMajorRecords df := by
  by_cases h1 : df.empty = true
  · rw [create_empty_path df t w h h1] at hok
    exact absurd hok (by simp)
  · have hne : df.empty = false := by simpa using h1
    by_cases h2 : df.select_dtypes_number = []
    · rw [create_no_numeric_path df t w h hne h2] at hok
      exact absurd hok (by simp)
    · by_cases h3 : ∀ c ∈ df.cols, c.name ≠ effectiveIndexName df
      · rw [create_ok_of_valid df t w h hne h2 h3] at hok
        simp only [Except.ok.injEq] at hok
        rw [← hok]
      · rw [create_collision_path df t w h hne h2 h3] at hok
        exact absurd hok (by simp)

/-- Helper: the length of the column-major enumeration of a well-formed
table is rows × columns. -/
theorem length_columnMajorRecords (df : DataFrame) (hwf : df.WF) :
    (columnMajorRecords df).length = df.index.length * df.cols.length := by
  unfold columnMajorRecords
  have key : ∀ cols : List Column, (∀ c ∈ cols, c.values.length = df.index.length) →
      (cols.flatMap
        (fun c => (df.index.zip c.values).map
          (fun p : Value × Value => LongRecord.mk p.1 c.name p.2))).length =
        df.index.length * cols.length := by
    intro cols
    induction cols with
    | nil => intro _; simp
    | cons a tl ih =>
      intro hall
      have ha := hall a (by simp)
      simp only [List.flatMap_cons, List.length_append, List.length_map,
        List.length_zip, List.length_cons, ha, Nat.min_self,
        ih (fun c hc => hall c (List.mem_cons_of_mem _ hc))]
      ring
  exact key df.cols hwf

/-- Helper: the only two possible final states of the caller's dataframe:
unchanged, or with the row-label axis renamed in place. -/
theorem finalInput_cases (df : DataFrame) (t : Option String) (w h : Int) :
    (create_stacked_bar_chart (.dataframe df) t w h).finalInput = .dataframe df ∨
    (create_stacked_bar_chart (.dataframe df) t w h).finalInput =
      .dataframe (afterNaming df) := by
  by_cases h1 : df.empty = true
  · left; rw [create_empty_path df t w h h1]
  have hne : df.empty = false := by simpa using h1
  by_cases h2 : df.select_dtypes_number = []
  · left; rw [create_no_numeric_path df t w h hne h2]
  by_cases h3 : ∀ c ∈ df.cols, c.name ≠ effectiveIndexName df
  · right; rw [create_ok_of_valid df t w h hne h2 h3]
  · right; rw [create_collision_path df t w h hne h2 h3]

/-- Claim C1 is false on the code: at the spec's own scenario table the
call succeeds but produces the records in column-major order — all years
for `Research`, then all years for `Training` — so the second record is
`(2021, Research, 2.5)` rather than the claimed `(2020, Training, 0.8)`,
and the produced sequence differs from the row-major enumeration. -/
theorem C1_counterexample :
    ((create_stacked_bar_chart (.dataframe scenarioDf) none 700 400).result.map
      (fun c => c.data.records)) = .ok (columnMajorRecords scenarioDf) ∧
    columnMajorRecords scenarioDf =
      [⟨Value.num 2020, "Research", Value.num (mkRat 21 10)⟩,
       ⟨Value.num 2021, "Research", Value.num (mkRat 25 10)⟩,
       ⟨Value.num 2020, "Training", Value.num (mkRat 8 10)⟩,
       ⟨Value.num 2021, "Training", Value.num (mkRat 10 10)⟩] ∧
    rowMajorRecords scenarioDf =
      [⟨Value.num 2020, "Research", Value.num (mkRat 21 10)⟩,
       ⟨Value.num 2020, "Training", Value.num (mkRat 8 10)⟩,
       ⟨Value.num 2021, "Research", Value.num (mkRat 25 10)⟩,
       ⟨Value.num 2021, "Training", Value.num (mkRat 10 10)⟩] ∧
    columnMajorRecords scenarioDf ≠ rowMajorRecords scenarioDf := by decide

/-- Claim C1 (amended): the long-format record sequence produced by
`create_stacked_bar_chart` is in column-major order: all records for the
first activity column, then all records for the second, and so on, with
records grouped by activity column in the input table's original column
order and, within each activity, ordered by the input table's original
row order. -/
theorem C1_order_amended (df : DataFrame) (t : Option String) (w h : Int)
    (chart : ChartSpec)
    (hok : (create_stacked_bar_chart (.dataframe df) t w h).result = .ok chart) :
    chart.data.records = columnMajorRecords df :=
  records_eq_of_ok df t w h chart hok

theorem C1_order_amended_witness :
    (create_stacked_bar_chart (.dataframe scenarioDf) none 700 400).result =
      .ok scenarioChart ∧
    scenarioChart.data.records = columnMajorRecords scenarioDf :=
  ⟨by decide, C1_order_amended scenarioDf none 700 400 scenarioChart (by decide)⟩

/-- Claim C2 is false on the code: on the (valid) scenario table, whose
row-label axis is unnamed, the call mutates the caller's table in place,
setting its row-label axis name to `"Year"` (line 94 of the source). -/
theorem C2_counterexample :
    scenarioDf.indexName = none ∧
    (create_stacked_bar_chart (.dataframe scenarioDf) none 700 400).finalInput =
      .dataframe { scenarioDf with indexName := some "Year" } ∧
    (create_stacked_bar_chart (.dataframe scenarioDf) none 700 400).finalInput ≠
      .dataframe scenarioDf := by decide

/-- Claim C2 (amended): the only mutation `create_stacked_bar_chart` ever
performs on the caller's table is assigning the fixed name `"Year"` to an
unnamed row-label axis; the row labels, the columns and all cell values
are never changed, and when the row-label axis is already named the table
is left entirely unchanged.  (No process-wide state other than the theme
is modelled because the source touches none.) -/
theorem C2_no_mutation_amended (df : DataFrame) (t : Option String) (w h : Int) :
    (∃ df', (create_stacked_bar_chart (.dataframe df) t w h).finalInput =
        .dataframe df' ∧
      df'.index = df.index ∧ df'.cols = df.cols ∧
      (df'.indexName = df.indexName ∨
        (df.indexName = none ∧ df'.indexName = some "Year"))) ∧
    (df.indexName ≠ none →
      (create_stacked_bar_chart (.dataframe df) t w h).finalInput =
        .dataframe df) := by
  constructor
  · rcases finalInput_cases df t w h with hf | hf
    · exact ⟨df, hf, rfl, rfl, Or.inl rfl⟩
    · refine ⟨afterNaming df, hf, rfl, rfl, ?_⟩
      cases hidx : df.indexName with
      | none =>
        exact Or.inr ⟨rfl, by simp [afterNaming, effectiveIndexName, hidx]⟩
      | some n =>
        exact Or.inl (by simp [afterNaming, effectiveIndexName, hidx])
  · intro hn
    rcases finalInput_cases df t w h with hf | hf
    · exact hf
    · cases hidx : df.indexName with
      | none => exact absurd hidx hn
      | some n => rw [hf, afterNaming_of_named df n hidx]

theorem C2_no_mutation_witness :
    (create_stacked_bar_chart (.dataframe namedScenarioDf) none 700 400).finalInput =
      .dataframe namedScenarioDf :=
  (C2_no_mutation_amended namedScenarioDf none 700 400).2 (by decide)

/-- Claim C3: every chart the call returns carries exactly
rows × columns long-format records, one per cell of the input table. -/
theorem C3_record_count (df : DataFrame) (t : Option String) (w h : Int)
    (chart : ChartSpec) (hwf : df.WF)
    (hok : (create_stacked_bar_chart (.dataframe df) t w h).result = .ok chart) :
    chart.data.records.length = df.index.length * df.cols.length := by
  rw [records_eq_of_ok df t w h chart hok]
  exact length_columnMajorRecords df hwf

theorem C3_record_count_witness :
    scenarioChart.data.records.length =
      scenarioDf.index.length * scenarioDf.cols.length ∧
    scenarioDf.index.length * scenarioDf.cols.length = 4 :=
  ⟨C3_record_count scenarioDf none 700 400 scenarioChart (by decide) (by decide),
   by decide⟩

/-- Claim C4 is false on the code: `collisionDf` is a recognized tabular
structure, non-empty, with a numeric column — yet the call raises
pandas' `ValueError: cannot insert Year, already exists` from
`reset_index`, because the auto-assigned axis name `"Year"` collides with
the existing column `"Year"`; no chart spec is returned. -/
theorem C4_counterexample :
    collisionDf.WF ∧
    collisionDf.empty = false ∧
    collisionDf.select_dtypes_number ≠ [] ∧
    (create_stacked_bar_chart (.dataframe collisionDf) none 700 400).result =
      .error (.insertCollision "Year") ∧
    (PyError.insertCollision "Year").pyType = "ValueError" ∧
    (PyError.insertCollision "Year").message = "cannot insert Year, already exists" ∧
    (create_stacked_bar_chart (.dataframe collisionDf) none 700 400).result.isOk
      = false := by decide

/-- Claim C4 (amended): for every recognized tabular input that is
non-empty, has at least one numeric column, and has no column whose name
equals the effective row-label axis name (the axis name, or `"Year"` when
the axis is unnamed), `create_stacked_bar_chart` returns a chart spec and
raises no error. -/
theorem C4_total_amended (df : DataFrame) (t : Option String) (w h : Int)
    (hne : df.empty = false)
    (hnum : df.select_dtypes_number ≠ [])
    (hcol : ∀ c ∈ df.cols, c.name ≠ effectiveIndexName df) :
    (create_stacked_bar_chart (.dataframe df) t w h).result.isOk = true := by
  rw [create_ok_of_valid df t w h hne hnum hcol]
  rfl

theorem C4_total_witness :
    (create_stacked_bar_chart (.dataframe scenarioDf) none 700 400).result.isOk
      = true :=
  C4_total_amended scenarioDf none 700 400 (by decide) (by decide) (by decide)

/-- Claim C5: whenever the call fails with one of the three validation
errors (type mismatch, empty input, no numeric column), the caller's
argument is unchanged and the rendering theme has not been enabled by the
call: all three checks run before any reshape work or mutation. -/
theorem C5_fail_fast (input : PyInput) (t : Option String) (w h : Int)
    (e : PyError)
    (herr : (create_stacked_bar_chart input t w h).result = .error e)
    (hthree : e = .typeMismatch ∨ e = .emptyInput ∨ e = .noNumericColumn) :
    (create_stacked_bar_chart input t w h).finalInput = input ∧
    (create_stacked_bar_chart input t w h).themeEnabled = false := by
  cases input with
  | pyList xs => exact ⟨rfl, rfl⟩
  | otherObject d => exact ⟨rfl, rfl⟩
  | dataframe df =>
    by_cases h1 : df.empty = true
    · rw [create_empty_path df t w h h1]
      exact ⟨rfl, rfl⟩
    have hne : df.empty = false := by simpa using h1
    by_cases h2 : df.select_dtypes_number = []
    · rw [create_no_numeric_path df t w h hne h2]
      exact ⟨rfl, rfl⟩
    by_cases h3 : ∀ c ∈ df.cols, c.name ≠ effectiveIndexName df
    · rw [create_ok_of_valid df t w h hne h2 h3] at herr
      exact absurd herr (by simp)
    · rw [create_collision_path df t w h hne h2 h3] at herr
      simp only [Except.error.injEq] at herr
      rcases hthree with hx | hx | hx <;> rw [← herr] at hx <;>
        exact absurd hx (by simp)

theorem C5_fail_fast_witness :
    (create_stacked_bar_chart (.dataframe zeroRowObjectDf) none 700 400).finalInput =
      .dataframe zeroRowObjectDf ∧
    (create_stacked_bar_chart (.dataframe zeroRowObjectDf) none 700 400).themeEnabled
      = false :=
  C5_fail_fast (.dataframe zeroRowObjectDf) none 700 400 .emptyInput (by decide)
    (Or.inr (Or.inl rfl))

/-- Claim C6: every recognized tabular input with zero rows or zero
columns fails with the empty-input failure, a `ValueError` reading
"DataFrame cannot be empty", and no chart spec is returned. -/
theorem C6_empty_input (df : DataFrame) (t : Option String) (w h : Int)
    (hemp : df.index.length = 0 ∨ df.cols.length = 0) :
    (create_stacked_bar_chart (.dataframe df) t w h).result = .error .emptyInput ∧
    PyError.emptyInput.pyType = "ValueError" ∧
    PyError.emptyInput.message = "DataFrame cannot be empty" ∧
    (create_stacked_bar_chart (.dataframe df) t w h).result.isOk = false := by
  have he : df.empty = true := by
    unfold DataFrame.empty
    rcases hemp with hx | hx <;> simp [hx]
  rw [create_empty_path df t w h he]
  exact ⟨rfl, rfl, rfl, rfl⟩

theorem C6_empty_input_witness :
    (create_stacked_bar_chart (.dataframe zeroRowObjectDf) none 700 400).result =
      .error .emptyInput ∧
    PyError.emptyInput.pyType = "ValueError" ∧
    PyError.emptyInput.message = "DataFrame cannot be empty" ∧
    (create_stacked_bar_chart (.dataframe zeroRowObjectDf) none 700 400).result.isOk
      = false :=
  C6_empty_input zeroRowObjectDf none 700 400 (Or.inl rfl)

/-- Claim C7: a non-empty tabular input all of whose columns are
non-numeric fails with the schema failure (a `ValueError` reading
"DataFrame must contain at least one numeric column"), while the presence
of at least one numeric column rules that failure out — non-numeric
columns alone never cause it. -/
theorem C7_schema_error (df : DataFrame) (t : Option String) (w h : Int)
    (hne : df.empty = false) :
    ((∀ c ∈ df.cols, c.dtype ≠ Dtype.number) →
      (create_stacked_bar_chart (.dataframe df) t w h).result =
          .error .noNumericColumn ∧
        PyError.noNumericColumn.pyType = "ValueError" ∧
        PyError.noNumericColumn.message =
          "DataFrame must contain at least one numeric column") ∧
    ((∃ c ∈ df.cols, c.dtype = Dtype.number) →
      (create_stacked_bar_chart (.dataframe df) t w h).result ≠
        .error .noNumericColumn) := by
  constructor
  · intro hall
    have hnil : df.select_dtypes_number = [] := by
      unfold DataFrame.select_dtypes_number
      rw [List.filter_eq_nil_iff]
      intro c hc
      simpa using hall c hc
    rw [create_no_numeric_path df t w h hne hnil]
    exact ⟨rfl, rfl, rfl⟩
  · intro hex
    have hnonnil : df.select_dtypes_number ≠ [] := by
      obtain ⟨c, hc, hd⟩ := hex
      intro hnil
      have hmem : c ∈ df.select_dtypes_number := by
        unfold DataFrame.select_dtypes_number
        rw [List.mem_filter]
        exact ⟨hc, by simp [hd]⟩
      rw [hnil] at hmem
      exact absurd hmem (List.not_mem_nil c)
    by_cases h3 : ∀ c ∈ df.cols, c.name ≠ effectiveIndexName df
    · rw [create_ok_of_valid df t w h hne hnonnil h3]
      simp
    · rw [create_collision_path df t w h hne hnonnil h3]
      simp

theorem C7_schema_error_witness :
    (create_stacked_bar_chart (.dataframe nonNumericDf) none 700 400).result =
      .error .noNumericColumn ∧
    (create_stacked_bar_chart (.dataframe scenarioDf) none 700 400).result ≠
      .error .noNumericColumn :=
  ⟨((C7_schema_error nonNumericDf none 700 400 (by decide)).1 (by decide)).1,
   (C7_schema_error scenarioDf none 700 400 (by decide)).2 (by decide)⟩

/-- Claim C8: every input that is not a recognized tabular structure — a
bare list, or any other non-dataframe value — fails with the
type-mismatch failure, a `TypeError` reading "Input must be a pandas
DataFrame", and no chart spec is returned. -/
theorem C8_type_mismatch (xs : List Value) (d : String) (t : Option String)
    (w h : Int) :
    (create_stacked_bar_chart (.pyList xs) t w h).result = .error .typeMismatch ∧
    (create_stacked_bar_chart (.otherObject d) t w h).result =
      .error .typeMismatch ∧
    PyError.typeMismatch.pyType = "TypeError" ∧
    PyError.typeMismatch.message = "Input must be a pandas DataFrame" ∧
    (create_stacked_bar_chart (.pyList xs) t w h).result.isOk = false ∧
    (create_stacked_bar_chart (.otherObject d) t w h).result.isOk = false :=
  ⟨rfl, rfl, rfl, rfl, rfl, rfl⟩

/-- Claim C9: on a valid table whose row-label axis is unnamed, the call
assigns the axis the fixed name `"Year"` (visible in the caller's table
afterwards), and any returned chart spec labels the horizontal axis
`"Year"` and binds it to the `"Year"` column (ordinal encoding). -/
theorem C9_year_naming (df : DataFrame) (t : Option String) (w h : Int)
    (hunnamed : df.indexName = none)
    (hne : df.empty = false)
    (hnum : df.select_dtypes_number ≠ []) :
    (create_stacked_bar_chart (.dataframe df) t w h).finalInput =
      .dataframe { df with indexName := some "Year" } ∧
    (∀ chart, (create_stacked_bar_chart (.dataframe df) t w h).result = .ok chart →
      chart.xTitle = "Year" ∧ chart.xField = "Year:O") := by
  have hAN : afterNaming df = { df with indexName := some "Year" } := by
    simp [afterNaming, effectiveIndexName, hunnamed]
  have heff : effectiveIndexName df = "Year" := by
    simp [effectiveIndexName, hunnamed]
  by_cases h3 : ∀ c ∈ df.cols, c.name ≠ effectiveIndexName df
  · rw [create_ok_of_valid df t w h hne hnum h3]
    refine ⟨by rw [hAN], ?_⟩
    intro chart hok
    simp only [Except.ok.injEq] at hok
    rw [← hok]
    refine ⟨rfl, ?_⟩
    rw [heff]
    exact rfl
  · rw [create_collision_path df t w h hne hnum h3]
    refine ⟨by rw [hAN], ?_⟩
    intro chart hok
    exact absurd hok (by simp)

theorem C9_year_naming_witness :
    (create_stacked_bar_chart (.dataframe scenarioDf) none 700 400).finalInput =
      .dataframe { scenarioDf with indexName := some "Year" } ∧
    (scenarioChart.xTitle = "Year" ∧ scenarioChart.xField = "Year:O") :=
  ⟨(C9_year_naming scenarioDf none 700 400 rfl (by decide) (by decide)).1,
   (C9_year_naming scenarioDf none 700 400 rfl (by decide) (by decide)).2
     scenarioChart (by decide)⟩

/-- Claim C10: the three validation checks run in a fixed precedence
order — type, then emptiness, then numeric columns — so any non-tabular
input fails with the type mismatch regardless of contents, any empty
dataframe fails with the empty-input failure regardless of its declared
columns, and in particular a zero-row table whose only declared column is
non-numeric fails with the empty-input failure, not the schema failure. -/
theorem C10_check_precedence (t : Option String) (w h : Int) :
    (∀ xs : List Value,
      (create_stacked_bar_chart (.pyList xs) t w h).result =
        .error .typeMismatch) ∧
    (∀ d : String,
      (create_stacked_bar_chart (.otherObject d) t w h).result =
        .error .typeMismatch) ∧
    (∀ df : DataFrame, df.empty = true →
      (create_stacked_bar_chart (.dataframe df) t w h).result =
        .error .emptyInput) ∧
    ((∀ c ∈ zeroRowObjectDf.cols, c.dtype ≠ Dtype.number) ∧
      zeroRowObjectDf.index.length = 0 ∧
      (create_stacked_bar_chart (.dataframe zeroRowObjectDf) t w h).result =
        .error .emptyInput ∧
      (create_stacked_bar_chart (.dataframe zeroRowObjectDf) t w h).result ≠
        .error .noNumericColumn) := by
  refine ⟨fun xs => rfl, fun d => rfl, fun df hemp => ?_, by decide, rfl, rfl, ?_⟩
  · rw [create_empty_path df t w h hemp]
  · intro hc
    exact PyError.noConfusion (Except.error.inj hc)

theorem C10_check_precedence_witness :
    (create_stacked_bar_chart (.pyList [Value.num 1, Value.num 2]) none 700 400).result
      = .error .typeMismatch ∧
    (create_stacked_bar_chart (.dataframe zeroRowObjectDf) none 700 400).result
      = .error .emptyInput :=
  ⟨(C10_check_precedence none 700 400).1 [Value.num 1, Value.num 2],
   (C10_check_precedence none 700 400).2.2.1 zeroRowObjectDf rfl⟩
